import Mathlib

/-!
# Node platform power estimation (`pkg/model/node_platform_energy.go`)

A shallow embedding of the Go file `pkg/model/node_platform_energy.go` of kepler.

* The package-level variable `nodePlatformPowerModel` and the `klog` output are fields of an
  explicit `World`, passed through every function.
* The estimator (`PowerModelInterface`) and the node statistics (`*stats.NodeStats`) are
  declared in other packages: every function below is parametric in a table of their
  methods, so that a theorem holds for every implementation, and so that an instrumented
  double (`recordingEstimator`, `recordingStats`) can record the calls that are made.
* A method call on a nil interface value panics in Go: the functions return
  `Except GoPanic _`.
* `uint64` values are naturals, with `% uint64Size` where the Go code multiplies or adds.
-/

namespace Kepler

/-! ## Go values -/

/-- The number of values of a Go `uint64`. -/
def uint64Size : Nat := 18446744073709551616

/-- A Go runtime panic. The only one this file can raise is the call of a method on a nil
interface value. -/
inductive GoPanic where
  | nilPointerDereference
  deriving DecidableEq, Repr

/-- What `fmt.Sprint` prints for a Go `int`: the decimal digits, after a minus sign for a
negative number. -/
def fmtSprint : Int → String
  | Int.ofNat n => String.mk (Nat.toDigits 10 n)
  | Int.negSucc n => String.mk ('-' :: Nat.toDigits 10 (n + 1))

/-- A Go map, as the list of its entries in iteration order. Go leaves the iteration order
of a map unspecified; a list fixes one. -/
abbrev GoMap (κ ν : Type) := List (κ × ν)

namespace GoMap

variable {κ ν : Type} [DecidableEq κ]

/-- The Go expression `m[k]` with its presence flag. -/
def get (m : GoMap κ ν) (k : κ) : Option ν :=
  match m with
  | [] => none
  | (k', v') :: rest => if k' = k then some v' else get rest k

/-- The Go statement `m[k] = v`: overwrite the entry of `k`, or add one. -/
def set (m : GoMap κ ν) (k : κ) (v : ν) : GoMap κ ν :=
  match m with
  | [] => [(k, v)]
  | (k', v') :: rest => if k' = k then (k, v) :: rest else (k', v') :: set rest k v

/-- The keys of a map, in iteration order. -/
def keys (m : GoMap κ ν) : List κ := m.map Prod.fst

end GoMap

/-! ## The collaborators declared outside this file -/

/-- Modelled from the spec: the `PowerResult` that `GetPlatformPower` returns, whose type
declaration is not in this file. The spec calls it a mapping from a small integer domain
index (e.g. socket) to an absolute power value (`mapping[int -> uint64]`); a mapping holds
one entry per index. -/
structure PowerResult where
  entries : GoMap Int Nat
  nodup : (GoMap.keys entries).Nodup

/-- One call of a method of `PowerModelInterface`, as an instrumented estimator records
it. -/
inductive EstimatorCall (F : Type) where
  | ResetSampleIdx
  | GetNodeFeatureNamesList
  | AddNodeFeatureValues (x : List F)
  | GetPlatformPower (isIdlePower : Bool)
  | IsEnabled
  deriving DecidableEq, Repr

/-- The methods of `PowerModelInterface` that this file calls, over an estimator whose
internal state has type `σ`; `F` stands for `float64`. The interface is declared elsewhere
in the package, so each method is an arbitrary state transformer. The error of
`GetPlatformPower` is `none` for Go's `nil`. -/
structure PowerModelInterface (σ F : Type) where
  ResetSampleIdx : σ → σ
  GetNodeFeatureNamesList : σ → List String × σ
  AddNodeFeatureValues : List F → σ → σ
  GetPlatformPower : Bool → σ → (PowerResult × Option String) × σ
  IsEnabled : σ → Bool × σ

/-- The instrumented estimator double: it behaves as `M` and appends every call to a
record. -/
def recordingEstimator {σ F : Type} (M : PowerModelInterface σ F) :
    PowerModelInterface (σ × List (EstimatorCall F)) F where
  ResetSampleIdx := fun s => (M.ResetSampleIdx s.1, s.2 ++ [EstimatorCall.ResetSampleIdx])
  GetNodeFeatureNamesList := fun s =>
    ((M.GetNodeFeatureNamesList s.1).1,
      ((M.GetNodeFeatureNamesList s.1).2, s.2 ++ [EstimatorCall.GetNodeFeatureNamesList]))
  AddNodeFeatureValues := fun x s =>
    (M.AddNodeFeatureValues x s.1, s.2 ++ [EstimatorCall.AddNodeFeatureValues x])
  GetPlatformPower := fun isIdlePower s =>
    ((M.GetPlatformPower isIdlePower s.1).1,
      ((M.GetPlatformPower isIdlePower s.1).2,
        s.2 ++ [EstimatorCall.GetPlatformPower isIdlePower]))
  IsEnabled := fun s =>
    ((M.IsEnabled s.1).1, ((M.IsEnabled s.1).2, s.2 ++ [EstimatorCall.IsEnabled]))

/-- Modelled from the spec: the keys `config.AbsEnergyInPlatform` and
`config.IdleEnergyInPlatform` of `NodeStats.EnergyUsage`, constants of the `config`
package. The spec names two distinct accounting buckets, "absolute platform energy" and
"idle platform energy"; `other` stands for every further bucket of `EnergyUsage`. -/
inductive EnergyKey where
  | AbsEnergyInPlatform
  | IdleEnergyInPlatform
  | other (name : String)
  deriving DecidableEq, Repr

/-- What this file uses of `*stats.NodeStats` and of the `config` package, over node
statistics of type `S`: the method `ToEstimatorValues`, the call
`EnergyUsage[bucket].SetDeltaStat(key, value)`, and the constant `config.SamplePeriodSec`
(a `uint64`). -/
structure NodeStatsInterface (S F : Type) where
  ToEstimatorValues : S → List String → Bool → List F
  SetDeltaStat : EnergyKey → String → Nat → S → S
  SamplePeriodSec : Nat

/-- The instrumented node statistics: they behave as `N` and append every `SetDeltaStat`
call (bucket, key, value) to a record. -/
def recordingStats {S F : Type} (N : NodeStatsInterface S F) :
    NodeStatsInterface (S × List (EnergyKey × String × Nat)) F where
  ToEstimatorValues := fun s names normalize => N.ToEstimatorValues s.1 names normalize
  SetDeltaStat := fun bucket key value s =>
    (N.SetDeltaStat bucket key value s.1, s.2 ++ [(bucket, key, value)])
  SamplePeriodSec := N.SamplePeriodSec

/-- Modelled from the spec: the delta-stat storage `NodeStats.EnergyUsage` of the `stats`
package, which is not in this file. The spec describes an `EnergyDeltaStat` as a
per-source accumulator, one per bucket and source identifier. -/
abbrev EnergyUsage := EnergyKey → GoMap String Nat

/-- Modelled from the spec: the accumulator of source `key` in bucket `bucket`; a source
that was never updated has accumulated nothing. -/
def EnergyUsage.accumulator (e : EnergyUsage) (bucket : EnergyKey) (key : String) : Nat :=
  ((e bucket).get key).getD 0

/-- Modelled from the spec: `SetDeltaStat` of the `stats` package, which is not in this
file. The spec says the accumulator is "incremented by `power × fixed_sample_period`,
never overwritten" and that the update is a "keyed additive update"; the accumulator is a
`uint64`, so the sum is taken modulo `uint64Size`. -/
def EnergyUsage.SetDeltaStat (bucket : EnergyKey) (key : String) (value : Nat)
    (e : EnergyUsage) : EnergyUsage :=
  Function.update e bucket
    ((e bucket).set key ((EnergyUsage.accumulator e bucket key + value) % uint64Size))

/-- Modelled from the spec: node statistics that are nothing but the delta-stat storage,
with `SetDeltaStat` as the spec describes it. `values` is the feature row that
`ToEstimatorValues` computes (from resource usage, not modelled). -/
def accumulatingStats {F : Type} (values : List String → Bool → List F)
    (samplePeriodSec : Nat) : NodeStatsInterface EnergyUsage F where
  ToEstimatorValues := fun _ names normalize => values names normalize
  SetDeltaStat := EnergyUsage.SetDeltaStat
  SamplePeriodSec := samplePeriodSec

/-- The fields of `types.ModelConfig` that this file reads or writes. `ModelType` and
`ModelOutputType` are enumerations of the `types` package, kept as their ordinal. -/
structure ModelConfig where
  ModelType : Nat
  ModelOutputType : Nat
  InitModelURL : String
  InitModelFilepath : String
  NodeFeatureNames : List String
  SystemMetaDataFeatureNames : List String
  SystemMetaDataFeatureValues : List String
  IsNodePowerModel : Bool
  deriving DecidableEq, Repr

/-- An estimator instance: the value a non-nil `PowerModelInterface` variable holds is a
pointer (`ptr`, the identity of the instance) to the estimator state (`state`). The
methods change the state, never the pointer. -/
structure Instance (σ : Type) where
  ptr : Nat
  state : σ
  deriving DecidableEq, Repr

/-- The functions and constants of other packages that
`CreateNodePlatformPowerEstimatorModel` calls, over an environment `ε` (configuration,
hardware, file system, network) that they read and that construction may change.

`createPowerModelEstimator` returns Go's pair `(PowerModelInterface, error)`: the first
component is `none` for a nil interface value, the second `none` for a nil error. -/
structure Collaborators (σ ε : Type) where
  IsSystemCollectionSupported : ε → Bool
  NodePlatformPowerKey : String
  CreatePowerModelConfig : String → ε → ModelConfig
  ModelOutputTypeString : Nat → String
  PlatformEnergySource : String
  GetDefaultPowerModelURL : String → String → String
  createPowerModelEstimator : ModelConfig → ε → (Option (Instance σ) × Option String) × ε

/-- The instrumented double of `createPowerModelEstimator`: it behaves as `C` and records
the configuration of every construction attempt. -/
def recordingCollaborators {σ ε : Type} (C : Collaborators σ ε) :
    Collaborators σ (ε × List ModelConfig) where
  IsSystemCollectionSupported := fun e => C.IsSystemCollectionSupported e.1
  NodePlatformPowerKey := C.NodePlatformPowerKey
  CreatePowerModelConfig := fun key e => C.CreatePowerModelConfig key e.1
  ModelOutputTypeString := C.ModelOutputTypeString
  PlatformEnergySource := C.PlatformEnergySource
  GetDefaultPowerModelURL := C.GetDefaultPowerModelURL
  createPowerModelEstimator := fun modelConfig e =>
    ((C.createPowerModelEstimator modelConfig e.1).1,
      ((C.createPowerModelEstimator modelConfig e.1).2, e.2 ++ [modelConfig]))

/-! ## The state of the package -/

/-- One line of `klog` output: the call and its format string. -/
inductive LogLine where
  | Infof (format : String)
  | V1Infof (format : String)
  | Errorf (format : String)
  | Errorln (message : String)
  deriving DecidableEq, Repr

/-- The state the file works on: the package-level variable `nodePlatformPowerModel`
(`none` is Go's `nil`), the log, and the environment. -/
structure World (σ ε : Type) where
  nodePlatformPowerModel : Option (Instance σ)
  klog : List LogLine
  env : ε

/-- Append one line to the log. -/
def World.log {σ ε : Type} (w : World σ ε) (line : LogLine) : World σ ε :=
  { w with klog := w.klog ++ [line] }

/-! ## The source file -/

/-- The constant `estimatorACPISensorID` (line 30). -/
def estimatorACPISensorID : String := "estimator"

/-- Modelled from the spec: the constant `absPower` of the package, declared in another
file. The spec says `ApplyAbsoluteEnergy` calls the integrator with `isIdle=false`. -/
def absPower : Bool := false

/-- Modelled from the spec: the constant `idlePower` of the package, declared in another
file. The spec says `ApplyIdleEnergy` calls the integrator with `isIdle=true`. -/
def idlePower : Bool := true

/-- Lines 41-48 of `CreateNodePlatformPowerEstimatorModel`: the configuration that is
handed to `createPowerModelEstimator`. -/
def assembleModelConfig {σ ε : Type} (C : Collaborators σ ε)
    (nodeFeatureNames systemMetaDataFeatureNames systemMetaDataFeatureValues : List String)
    (env : ε) : ModelConfig :=
  -- line 41
  let modelConfig := C.CreatePowerModelConfig C.NodePlatformPowerKey env
  -- lines 42-44
  let modelConfig := if modelConfig.InitModelURL = "" then
      { modelConfig with
        InitModelFilepath :=
          C.GetDefaultPowerModelURL (C.ModelOutputTypeString modelConfig.ModelOutputType)
            C.PlatformEnergySource }
    else modelConfig
  -- lines 45-48
  { modelConfig with
    NodeFeatureNames := nodeFeatureNames
    SystemMetaDataFeatureNames := systemMetaDataFeatureNames
    SystemMetaDataFeatureValues := systemMetaDataFeatureValues
    IsNodePowerModel := true }

/-- The function `CreateNodePlatformPowerEstimatorModel` (lines 36-58). -/
def CreateNodePlatformPowerEstimatorModel {σ ε : Type} (C : Collaborators σ ε)
    (nodeFeatureNames systemMetaDataFeatureNames systemMetaDataFeatureValues : List String)
    (w : World σ ε) : World σ ε :=
  -- lines 37-39: the log line only, there is no return
  let w := if C.IsSystemCollectionSupported w.env then
      w.log (LogLine.Infof
        "Skipping creation of Node Platform Power Model since the system collection is supported")
    else w
  -- lines 41-48
  let modelConfig := assembleModelConfig C nodeFeatureNames systemMetaDataFeatureNames
    systemMetaDataFeatureValues w.env
  -- line 52: both results are assigned, the variable before the error is looked at
  let r := C.createPowerModelEstimator modelConfig w.env
  let w := { w with nodePlatformPowerModel := r.1.1, env := r.2 }
  -- lines 53-57
  match r.1.2 with
  | some _ =>
    w.log (LogLine.Errorf "Failed to create %s/%s Model to estimate Node Platform Power: %v")
  | none => w.log (LogLine.V1Infof "Using the %s/%s Model to estimate Node Platform Power")

/-- The function `IsNodePlatformPowerModelEnabled` (lines 61-66). -/
def IsNodePlatformPowerModelEnabled {σ ε F : Type} (M : PowerModelInterface σ F)
    (w : World σ ε) : Bool × World σ ε :=
  match w.nodePlatformPowerModel with
  | none => (false, w)
  | some inst =>
    ((M.IsEnabled inst.state).1,
      { w with nodePlatformPowerModel := some { inst with state := (M.IsEnabled inst.state).2 } })

/-- Lines 74-81 of `GetNodePlatformPower`: for an absolute power the sample list is reset
and one row of feature values is added; for an idle power nothing is done. -/
def addSample {σ F S : Type} (M : PowerModelInterface σ F) (N : NodeStatsInterface S F)
    (nodeMetrics : S) (isIdlePower : Bool) (st : σ) : σ :=
  if !isIdlePower then
    -- line 76
    let st := M.ResetSampleIdx st
    -- line 79: the argument is evaluated first
    let names := M.GetNodeFeatureNamesList st
    let featureValues := N.ToEstimatorValues nodeMetrics names.1 true
    -- line 80
    M.AddNodeFeatureValues featureValues names.2
  else st

/-- Lines 88-90 of `GetNodePlatformPower`: the loop over `powers`, from the map
`platformEnergy`. -/
def sourcePowers (powers : GoMap Int Nat) (platformEnergy : GoMap String Nat) :
    GoMap String Nat :=
  powers.foldl
    (fun m entry => GoMap.set m (estimatorACPISensorID ++ fmtSprint entry.1) entry.2)
    platformEnergy

/-- The function `GetNodePlatformPower` (lines 69-92). It returns the map and the new
world, or the panic. -/
def GetNodePlatformPower {σ ε F S : Type} (M : PowerModelInterface σ F)
    (N : NodeStatsInterface S F) (w : World σ ε) (nodeMetrics : S) (isIdlePower : Bool) :
    Except GoPanic (GoMap String Nat × World σ ε) :=
  -- lines 70-72: the log line only, there is no return
  let w := if w.nodePlatformPowerModel.isNone then
      w.log (LogLine.Errorln "Node Platform Power Model was not created")
    else w
  -- line 73
  let platformEnergy : GoMap String Nat := []
  match w.nodePlatformPowerModel with
  | none =>
    -- line 76 (absolute) or line 82 (idle): a method is called on the nil interface value
    Except.error GoPanic.nilPointerDereference
  | some inst =>
    -- lines 74-81
    let st := addSample M N nodeMetrics isIdlePower inst.state
    -- line 82
    let r := M.GetPlatformPower isIdlePower st
    let w := { w with nodePlatformPowerModel := some { inst with state := r.2 } }
    match r.1.2 with
    | some _ =>
      -- lines 83-86
      Except.ok (platformEnergy, w.log (LogLine.Infof "Failed to get node platform power %v\n"))
    | none =>
      -- lines 88-91
      Except.ok (sourcePowers r.1.1.entries platformEnergy, w)

/-- The loop of `UpdateNodePlatformEnergy` and `UpdateNodePlatformIdleEnergy` (lines 97-99
and 105-107): one `SetDeltaStat` for each entry of `platformPower`, with the `uint64`
product `power*config.SamplePeriodSec`. -/
def setPlatformEnergy {S F : Type} (N : NodeStatsInterface S F) (bucket : EnergyKey)
    (platformPower : GoMap String Nat) (nodeMetrics : S) : S :=
  platformPower.foldl
    (fun nm entry =>
      N.SetDeltaStat bucket entry.1 (entry.2 * N.SamplePeriodSec % uint64Size) nm)
    nodeMetrics

/-- The function `UpdateNodePlatformEnergy` (lines 95-100). -/
def UpdateNodePlatformEnergy {σ ε F S : Type} (M : PowerModelInterface σ F)
    (N : NodeStatsInterface S F) (w : World σ ε) (nodeMetrics : S) :
    Except GoPanic (S × World σ ε) :=
  match GetNodePlatformPower M N w nodeMetrics absPower with
  | Except.error p => Except.error p
  | Except.ok r =>
    Except.ok (setPlatformEnergy N EnergyKey.AbsEnergyInPlatform r.1 nodeMetrics, r.2)

/-- The function `UpdateNodePlatformIdleEnergy` (lines 103-108). -/
def UpdateNodePlatformIdleEnergy {σ ε F S : Type} (M : PowerModelInterface σ F)
    (N : NodeStatsInterface S F) (w : World σ ε) (nodeMetrics : S) :
    Except GoPanic (S × World σ ε) :=
  match GetNodePlatformPower M N w nodeMetrics idlePower with
  | Except.error p => Except.error p
  | Except.ok r =>
    Except.ok (setPlatformEnergy N EnergyKey.IdleEnergyInPlatform r.1 nodeMetrics, r.2)

/-! ## Definitions used by the statements -/

/-- The value of a decimal digit character. -/
def digitValue (c : Char) : Nat := c.toNat - 48

/-- The number a list of digit characters denotes, most significant digit first, continuing
from `init`. -/
def ofDigitChars (cs : List Char) (init : Nat) : Nat :=
  cs.foldl (fun a c => a * 10 + digitValue c) init

/-- The source identifier of a domain index (line 89). -/
def sourceID (socketID : Int) : String := estimatorACPISensorID ++ fmtSprint socketID

/-- An estimator double that keeps the pending feature rows as its state, predicts the
table `abs` for an absolute power and `idle` for an idle power, and returns the error
`err` with them. -/
def tableEstimator (abs idle : PowerResult) (err : Option String) (enabled : Bool) :
    PowerModelInterface (List (List Nat)) Nat where
  ResetSampleIdx := fun _ => []
  GetNodeFeatureNamesList := fun rows => (["cpu_time", "cache_miss"], rows)
  AddNodeFeatureValues := fun x rows => rows ++ [x]
  GetPlatformPower := fun isIdlePower rows => ((if isIdlePower then idle else abs, err), rows)
  IsEnabled := fun rows => (enabled, rows)

/-- The estimator of the scenario of the spec: two domains, `{0:150, 1:170}` for an
absolute power and `{0:20, 1:25}` for an idle power. -/
def scenarioEstimator : PowerModelInterface (List (List Nat)) Nat :=
  tableEstimator ⟨[(0, 150), (1, 170)], by decide⟩ ⟨[(0, 20), (1, 25)], by decide⟩ none true

/-- An estimator whose prediction fails, with power values next to the error. -/
def failingEstimator : PowerModelInterface (List (List Nat)) Nat :=
  tableEstimator ⟨[(0, 150), (1, 170)], by decide⟩ ⟨[(0, 20), (1, 25)], by decide⟩
    (some "prediction failed") true

/-- An estimator of three domains. -/
def threeDomainEstimator : PowerModelInterface (List (List Nat)) Nat :=
  tableEstimator ⟨[(0, 100), (1, 110), (2, 120)], by decide⟩
    ⟨[(0, 10), (1, 11), (2, 12)], by decide⟩ none true

/-- The node statistics of the scenario of the spec: the sample period is 3 seconds. The
feature row is the length of each feature name. -/
def scenarioStats : NodeStatsInterface EnergyUsage Nat :=
  accumulatingStats (fun names _ => names.map String.length) 3

/-- Delta-stat storage in which nothing has been accumulated. -/
def emptyEnergyUsage : EnergyUsage := fun _ => []

/-- A world in which an estimator with the state `st` has been constructed at address 7;
the next free address is 8. -/
def worldWith {σ : Type} (st : σ) : World σ Nat :=
  { nodePlatformPowerModel := some { ptr := 7, state := st }, klog := [], env := 8 }

/-- The world of a process that never called `CreateNodePlatformPowerEstimatorModel`. -/
def initialWorld {σ : Type} : World σ Nat :=
  { nodePlatformPowerModel := none, klog := [], env := 0 }

/-- The power that `GetNodePlatformPower` returns for the source `key`, when it returns
one. -/
def estimatedPower {σ ε F S : Type} (M : PowerModelInterface σ F)
    (N : NodeStatsInterface S F) (w : World σ ε) (nodeMetrics : S) (isIdlePower : Bool)
    (key : String) : Option Nat :=
  match GetNodePlatformPower M N w nodeMetrics isIdlePower with
  | Except.error _ => none
  | Except.ok r => GoMap.get r.1 key

/-- One call of an exported function of the file, with its arguments. -/
inductive Call (S : Type) where
  | CreateNodePlatformPowerEstimatorModel
      (nodeFeatureNames systemMetaDataFeatureNames systemMetaDataFeatureValues : List String)
  | IsNodePlatformPowerModelEnabled
  | GetNodePlatformPower (nodeMetrics : S) (isIdlePower : Bool)
  | UpdateNodePlatformEnergy (nodeMetrics : S)
  | UpdateNodePlatformIdleEnergy (nodeMetrics : S)

/-- Whether a call is a construction attempt. -/
def Call.isCreate {S : Type} : Call S → Bool
  | Call.CreateNodePlatformPowerEstimatorModel _ _ _ => true
  | _ => false

/-- The world after one call, or the panic that ends the process. -/
def runCall {σ ε F S : Type} (C : Collaborators σ ε) (M : PowerModelInterface σ F)
    (N : NodeStatsInterface S F) (w : World σ ε) : Call S → Except GoPanic (World σ ε)
  | Call.CreateNodePlatformPowerEstimatorModel a b c =>
    Except.ok (CreateNodePlatformPowerEstimatorModel C a b c w)
  | Call.IsNodePlatformPowerModelEnabled => Except.ok (IsNodePlatformPowerModelEnabled M w).2
  | Call.GetNodePlatformPower nodeMetrics isIdlePower =>
    (GetNodePlatformPower M N w nodeMetrics isIdlePower).map (fun r => r.2)
  | Call.UpdateNodePlatformEnergy nodeMetrics =>
    (UpdateNodePlatformEnergy M N w nodeMetrics).map (fun r => r.2)
  | Call.UpdateNodePlatformIdleEnergy nodeMetrics =>
    (UpdateNodePlatformIdleEnergy M N w nodeMetrics).map (fun r => r.2)

/-- The world after a sequence of calls; a panic ends the process, and the world stays
what it was when the panicking call began. -/
def runCalls {σ ε F S : Type} (C : Collaborators σ ε) (M : PowerModelInterface σ F)
    (N : NodeStatsInterface S F) : List (Call S) → World σ ε → World σ ε
  | [], w => w
  | call :: rest, w =>
    match runCall C M N w call with
    | Except.error _ => w
    | Except.ok w2 => runCalls C M N rest w2

/-- The address of the estimator instance that `nodePlatformPowerModel` holds, `none` for
nil. -/
def World.instancePtr {σ ε : Type} (w : World σ ε) : Option Nat :=
  w.nodePlatformPowerModel.map (fun inst => inst.ptr)

/-- Collaborators for the examples. The environment is the next free address:
`createPowerModelEstimator` fails when there is no node feature, and otherwise allocates a
new estimator with no pending feature row. The configured model URL is `url`. -/
def exampleCollaborators (url : String) (systemCollection : Bool) :
    Collaborators (List (List Nat)) Nat where
  IsSystemCollectionSupported := fun _ => systemCollection
  NodePlatformPowerKey := "NODE_TOTAL"
  CreatePowerModelConfig := fun _ _ =>
    { ModelType := 0, ModelOutputType := 1, InitModelURL := url, InitModelFilepath := "",
      NodeFeatureNames := [], SystemMetaDataFeatureNames := [],
      SystemMetaDataFeatureValues := [], IsNodePowerModel := false }
  ModelOutputTypeString := fun _ => "AbsPower"
  PlatformEnergySource := "acpi"
  GetDefaultPowerModelURL := fun outputType source => "/var/lib/" ++ source ++ "/" ++ outputType
  createPowerModelEstimator := fun modelConfig next =>
    if modelConfig.NodeFeatureNames = [] then ((none, some "no node feature"), next)
    else ((some { ptr := next, state := [] }, none), next + 1)

/-- Collaborators whose `createPowerModelEstimator` returns an estimator together with
an error: Go's pair `(PowerModelInterface, error)` allows both to be non-nil. Everything
else is as in `exampleCollaborators`. -/
def leakyCollaborators : Collaborators (List (List Nat)) Nat :=
  { exampleCollaborators "" false with
    createPowerModelEstimator := fun _ next =>
      ((some { ptr := next, state := [] }, some "model weights not loaded"), next + 1) }

/-- The update function of a mode: `UpdateNodePlatformIdleEnergy` for an idle power,
`UpdateNodePlatformEnergy` for an absolute power. -/
def updateFor {σ ε F S : Type} (isIdlePower : Bool) (M : PowerModelInterface σ F)
    (N : NodeStatsInterface S F) (w : World σ ε) (nodeMetrics : S) :
    Except GoPanic (S × World σ ε) :=
  if isIdlePower then UpdateNodePlatformIdleEnergy M N w nodeMetrics
  else UpdateNodePlatformEnergy M N w nodeMetrics

/-- The bucket that the update function of a mode writes. -/
def bucketFor (isIdlePower : Bool) : EnergyKey :=
  if isIdlePower then EnergyKey.IdleEnergyInPlatform else EnergyKey.AbsEnergyInPlatform

/-- The delta-stat storage of the scenario after `n` calls of `UpdateNodePlatformEnergy`
on storage in which nothing was accumulated. -/
def scenarioEnergyUsage : Nat → EnergyUsage
  | 0 => emptyEnergyUsage
  | n + 1 =>
    setPlatformEnergy scenarioStats EnergyKey.AbsEnergyInPlatform
      [("estimator0", 150), ("estimator1", 170)] (scenarioEnergyUsage n)

/-! ## Decimal rendering -/

theorem digitValue_digitChar (d : Nat) (h : d < 10) : digitValue (Nat.digitChar d) = d := by
  interval_cases d <;> rfl

theorem digitChar_ne_minus (d : Nat) (h : d < 10) : Nat.digitChar d ≠ '-' := by
  interval_cases d <;> decide

theorem ofDigitChars_toDigitsCore (fuel : Nat) :
    ∀ (n : Nat) (acc : List Char), n < fuel →
      ofDigitChars (Nat.toDigitsCore 10 fuel n acc) 0 = ofDigitChars acc n := by
  induction fuel with
  | zero => intro n acc h; omega
  | succ fuel ih =>
    intro n acc h
    have hd : digitValue (Nat.digitChar (n % 10)) = n % 10 :=
      digitValue_digitChar _ (Nat.mod_lt _ (by decide))
    simp only [Nat.toDigitsCore]
    split
    · rename_i h0
      have hn : n % 10 = n := by omega
      rw [hn] at hd
      simp [ofDigitChars, hd, hn]
    · rename_i h0
      rw [ih (n / 10) _ (by omega)]
      have hn : n / 10 * 10 + n % 10 = n := by omega
      simp [ofDigitChars, hd, hn]

theorem ofDigitChars_toDigits (n : Nat) : ofDigitChars (Nat.toDigits 10 n) 0 = n := by
  have h := ofDigitChars_toDigitsCore (n + 1) n [] (by omega)
  simpa [Nat.toDigits, ofDigitChars] using h

theorem toDigits_injective (a b : Nat) (h : Nat.toDigits 10 a = Nat.toDigits 10 b) : a = b := by
  have h1 := ofDigitChars_toDigits a
  rw [h, ofDigitChars_toDigits] at h1
  exact h1.symm

theorem toDigitsCore_no_minus (fuel : Nat) :
    ∀ (n : Nat) (acc : List Char), (∀ c ∈ acc, c ≠ '-') →
      ∀ c ∈ Nat.toDigitsCore 10 fuel n acc, c ≠ '-' := by
  induction fuel with
  | zero => intro n acc hacc c hc; exact hacc c (by simpa [Nat.toDigitsCore] using hc)
  | succ fuel ih =>
    intro n acc hacc c hc
    have hd : Nat.digitChar (n % 10) ≠ '-' := digitChar_ne_minus _ (Nat.mod_lt _ (by decide))
    have hacc2 : ∀ c ∈ Nat.digitChar (n % 10) :: acc, c ≠ '-' := by
      intro c hc
      rcases List.mem_cons.mp hc with h | h
      · rw [h]; exact hd
      · exact hacc c h
    simp only [Nat.toDigitsCore] at hc
    split at hc
    · exact hacc2 c hc
    · exact ih _ _ hacc2 c hc

theorem toDigits_no_minus (n : Nat) : '-' ∉ Nat.toDigits 10 n := by
  intro h
  exact toDigitsCore_no_minus (n + 1) n [] (by simp) '-' h rfl

/-- The rendering `fmt.Sprint` of an `int` is injective. -/
theorem fmtSprint_injective (i j : Int) (h : fmtSprint i = fmtSprint j) : i = j := by
  cases i with
  | ofNat a =>
    cases j with
    | ofNat b =>
      have h := congrArg String.data h
      simp only [fmtSprint] at h
      rw [toDigits_injective a b h]
    | negSucc b =>
      have h := congrArg String.data h
      simp only [fmtSprint] at h
      exact absurd (h ▸ List.mem_cons_self _ _) (toDigits_no_minus a)
  | negSucc a =>
    cases j with
    | ofNat b =>
      have h := congrArg String.data h
      simp only [fmtSprint] at h
      exact absurd (h ▸ List.mem_cons_self _ _) (toDigits_no_minus b)
    | negSucc b =>
      have h := congrArg String.data h
      simp only [fmtSprint, List.cons.injEq, true_and] at h
      have := toDigits_injective _ _ h
      have hab : a = b := by omega
      rw [hab]

/-- The source identifier `estimatorACPISensorID+fmt.Sprint(socketID)` is injective in
`socketID`. -/
theorem sourceID_injective (i j : Int)
    (h : estimatorACPISensorID ++ fmtSprint i = estimatorACPISensorID ++ fmtSprint j) :
    i = j := by
  apply fmtSprint_injective
  have h2 := congrArg String.data h
  simp only [String.data_append] at h2
  exact String.ext (List.append_cancel_left h2)

/-! ## Go maps -/

namespace GoMap

variable {κ ν : Type} [DecidableEq κ]

theorem set_of_not_mem (m : GoMap κ ν) (k : κ) (v : ν) (h : k ∉ keys m) :
    set m k v = m ++ [(k, v)] := by
  induction m with
  | nil => rfl
  | cons e rest ih =>
    obtain ⟨k', v'⟩ := e
    simp only [keys, List.map_cons, List.mem_cons, not_or] at h
    have hne : ¬ k' = k := fun hk => h.1 hk.symm
    simp only [set, hne, if_false, List.cons_append]
    rw [ih h.2]

theorem get_set_self (m : GoMap κ ν) (k : κ) (v : ν) : get (set m k v) k = some v := by
  induction m with
  | nil => simp [set, get]
  | cons e rest ih =>
    obtain ⟨k', v'⟩ := e
    by_cases hk : k' = k
    · simp [set, get, hk]
    · simp [set, get, hk, ih]

theorem get_set_ne (m : GoMap κ ν) (k k2 : κ) (v : ν) (h : k ≠ k2) :
    get (set m k v) k2 = get m k2 := by
  induction m with
  | nil => simp [set, get, h]
  | cons e rest ih =>
    obtain ⟨k', v'⟩ := e
    by_cases hk : k' = k
    · subst hk
      simp [set, get, h]
    · by_cases hk2 : k' = k2
      · subst hk2
        simp [set, get, hk]
      · simp [set, get, hk, hk2, ih]

theorem get_eq_none_of_not_mem (m : GoMap κ ν) (k : κ) (h : k ∉ keys m) : get m k = none := by
  induction m with
  | nil => rfl
  | cons e rest ih =>
    obtain ⟨k', v'⟩ := e
    simp only [keys, List.map_cons, List.mem_cons, not_or] at h
    have hne : ¬ k' = k := fun hk => h.1 hk.symm
    simp only [get, hne, if_false]
    exact ih h.2

/-- Renaming the keys of a map by an injective function renames its lookups. -/
theorem get_map_of_injective {κ2 : Type} [DecidableEq κ2] (f : κ → κ2)
    (hf : ∀ a b, f a = f b → a = b) (m : GoMap κ ν) (k : κ) :
    get (m.map (fun e => (f e.1, e.2))) (f k) = get m k := by
  induction m with
  | nil => rfl
  | cons e rest ih =>
    obtain ⟨k', v'⟩ := e
    by_cases hk : k' = k
    · simp [get, hk]
    · have hfk : ¬ f k' = f k := fun h => hk (hf _ _ h)
      simp only [List.map_cons, get, hk, hfk, if_false]
      exact ih

end GoMap

/-- With one entry per index in `powers`, the loop of lines 88-90 adds the entries of
`powers`, in order and under their source identifiers, to a map that has none of them. -/
theorem sourcePowers_eq_append (powers : GoMap Int Nat) :
    ∀ (m : GoMap String Nat), (GoMap.keys powers).Nodup →
      (∀ i ∈ GoMap.keys powers, sourceID i ∉ GoMap.keys m) →
      sourcePowers powers m = m ++ powers.map (fun e => (sourceID e.1, e.2)) := by
  induction powers with
  | nil => intro m _ _; simp [sourcePowers]
  | cons e rest ih =>
    intro m hnd hdis
    obtain ⟨i, v⟩ := e
    simp only [GoMap.keys, List.map_cons, List.nodup_cons] at hnd
    have hi : sourceID i ∉ GoMap.keys m := hdis i (by simp [GoMap.keys])
    have hstep : sourcePowers ((i, v) :: rest) m
        = sourcePowers rest (GoMap.set m (sourceID i) v) := rfl
    rw [hstep, GoMap.set_of_not_mem m _ v hi, ih _ hnd.2]
    · simp
    · intro j hj hmem
      simp only [GoMap.keys, List.map_append, List.map_cons, List.map_nil, List.mem_append,
        List.mem_singleton] at hmem
      rcases hmem with hmem | hmem
      · exact hdis j (by simp only [GoMap.keys, List.map_cons, List.mem_cons]; exact Or.inr hj) hmem
      · have hji : j = i := sourceID_injective j i hmem
        exact hnd.1 (hji ▸ hj)

theorem sourcePowers_eq_map (powers : PowerResult) :
    sourcePowers powers.entries [] = powers.entries.map (fun e => (sourceID e.1, e.2)) := by
  rw [sourcePowers_eq_append powers.entries [] powers.nodup (by simp [GoMap.keys])]
  simp

/-! ## The claims -/

/-- C1. With no estimator constructed (`nodePlatformPowerModel` is nil),
`GetNodePlatformPower` does not return an empty map: after the log line it calls a method
of the nil interface value and panics, for every `nodeMetrics` and both values of
`isIdlePower`. -/
theorem GetNodePlatformPower_nil_panics {σ ε F S : Type} (M : PowerModelInterface σ F)
    (N : NodeStatsInterface S F) (klog : List LogLine) (env : ε) (nodeMetrics : S)
    (isIdlePower : Bool) :
    GetNodePlatformPower M N
        { nodePlatformPowerModel := none, klog := klog, env := env } nodeMetrics isIdlePower
      = Except.error GoPanic.nilPointerDereference := by
  simp [GetNodePlatformPower, World.log]

/-- C4. When the estimator's `GetPlatformPower(isIdlePower)` returns a non-nil error,
`GetNodePlatformPower` returns the empty map, whatever power values come with the error,
and `UpdateNodePlatformEnergy` and `UpdateNodePlatformIdleEnergy` return the node
statistics they were given: no `SetDeltaStat` is called, for every implementation of the
statistics. -/
theorem prediction_error_updates_nothing {σ ε F S : Type} (M : PowerModelInterface σ F)
    (N : NodeStatsInterface S F) (ptr : Nat) (st : σ) (klog : List LogLine) (env : ε)
    (nodeMetrics : S) (isIdlePower : Bool)
    (herr : (M.GetPlatformPower isIdlePower
      (addSample M N nodeMetrics isIdlePower st)).1.2 ≠ none) :
    (∃ w, GetNodePlatformPower M N
        { nodePlatformPowerModel := some { ptr := ptr, state := st }, klog := klog, env := env }
        nodeMetrics isIdlePower = Except.ok ([], w)) ∧
    (isIdlePower = absPower → ∃ w, UpdateNodePlatformEnergy M N
        { nodePlatformPowerModel := some { ptr := ptr, state := st }, klog := klog, env := env }
        nodeMetrics = Except.ok (nodeMetrics, w)) ∧
    (isIdlePower = idlePower → ∃ w, UpdateNodePlatformIdleEnergy M N
        { nodePlatformPowerModel := some { ptr := ptr, state := st }, klog := klog, env := env }
        nodeMetrics = Except.ok (nodeMetrics, w)) := by
  obtain ⟨e, he⟩ := Option.ne_none_iff_exists'.mp herr
  have hget : ∃ w, GetNodePlatformPower M N
      { nodePlatformPowerModel := some { ptr := ptr, state := st }, klog := klog, env := env }
      nodeMetrics isIdlePower = Except.ok ([], w) := by
    simp only [GetNodePlatformPower, Option.isNone_some, Bool.false_eq_true, if_false, he]
    exact ⟨_, rfl⟩
  refine ⟨hget, ?_, ?_⟩
  · intro hmode
    subst hmode
    obtain ⟨w, hw⟩ := hget
    exact ⟨w, by simp [UpdateNodePlatformEnergy, hw, setPlatformEnergy]⟩
  · intro hmode
    subst hmode
    obtain ⟨w, hw⟩ := hget
    exact ⟨w, by simp [UpdateNodePlatformIdleEnergy, hw, setPlatformEnergy]⟩

/-- C4 at a concrete input: the failing estimator returns `{0:150, 1:170}` next to its
error; the instrumented statistics record no `SetDeltaStat` call and are unchanged. -/
theorem prediction_error_updates_nothing_witness :
    (failingEstimator.GetPlatformPower false
        (addSample failingEstimator (recordingStats scenarioStats) (emptyEnergyUsage, [])
          false [])).1.2 ≠ none ∧
    ((∃ w, GetNodePlatformPower failingEstimator (recordingStats scenarioStats)
        { nodePlatformPowerModel := some { ptr := 7, state := [] }, klog := [], env := () }
        (emptyEnergyUsage, []) false = Except.ok ([], w)) ∧
    (false = absPower → ∃ w, UpdateNodePlatformEnergy failingEstimator
        (recordingStats scenarioStats)
        { nodePlatformPowerModel := some { ptr := 7, state := [] }, klog := [], env := () }
        (emptyEnergyUsage, []) = Except.ok ((emptyEnergyUsage, []), w)) ∧
    (false = idlePower → ∃ w, UpdateNodePlatformIdleEnergy failingEstimator
        (recordingStats scenarioStats)
        { nodePlatformPowerModel := some { ptr := 7, state := [] }, klog := [], env := () }
        (emptyEnergyUsage, []) = Except.ok ((emptyEnergyUsage, []), w))) :=
  ⟨by decide,
    prediction_error_updates_nothing failingEstimator (recordingStats scenarioStats) 7 []
      [] () (emptyEnergyUsage, []) false (by decide)⟩

/-- C5. When the estimator's `GetPlatformPower` succeeds with the mapping `powers`,
`GetNodePlatformPower` returns a map that holds under `"estimator" + decimal(socketID)`
what `powers` holds under `socketID`, whose keys are exactly these source identifiers,
without a repeated key and with as many entries as `powers`; the source identifier is
injective in the index. -/
theorem GetNodePlatformPower_source_identifiers {σ ε F S : Type}
    (M : PowerModelInterface σ F) (N : NodeStatsInterface S F) (ptr : Nat) (st : σ)
    (klog : List LogLine) (env : ε) (nodeMetrics : S) (isIdlePower : Bool)
    (powers : PowerResult)
    (hpred : (M.GetPlatformPower isIdlePower (addSample M N nodeMetrics isIdlePower st)).1
      = (powers, none)) :
    ∃ platformEnergy w, GetNodePlatformPower M N
        { nodePlatformPowerModel := some { ptr := ptr, state := st }, klog := klog, env := env }
        nodeMetrics isIdlePower = Except.ok (platformEnergy, w) ∧
      (∀ socketID, GoMap.get platformEnergy (estimatorACPISensorID ++ fmtSprint socketID)
        = GoMap.get powers.entries socketID) ∧
      (∀ key, key ∈ GoMap.keys platformEnergy ↔
        ∃ socketID ∈ GoMap.keys powers.entries,
          key = estimatorACPISensorID ++ fmtSprint socketID) ∧
      (GoMap.keys platformEnergy).Nodup ∧
      platformEnergy.length = powers.entries.length ∧
      (∀ i j : Int, estimatorACPISensorID ++ fmtSprint i = estimatorACPISensorID ++ fmtSprint j
        → i = j) := by
  refine ⟨powers.entries.map (fun e => (sourceID e.1, e.2)),
    { nodePlatformPowerModel := some { ptr := ptr, state := (M.GetPlatformPower isIdlePower
        (addSample M N nodeMetrics isIdlePower st)).2 }, klog := klog, env := env },
    ?_, ?_, ?_, ?_, ?_, ?_⟩
  · simp only [GetNodePlatformPower, Option.isNone_some, Bool.false_eq_true, if_false, hpred]
    rw [sourcePowers_eq_map]
  · intro socketID
    exact GoMap.get_map_of_injective sourceID sourceID_injective powers.entries socketID
  · intro key
    simp only [GoMap.keys, List.map_map, List.mem_map, Function.comp, sourceID]
    constructor
    · rintro ⟨e, he, rfl⟩
      exact ⟨e.1, ⟨e, he, rfl⟩, rfl⟩
    · rintro ⟨i, ⟨e, he, rfl⟩, rfl⟩
      exact ⟨e, he, rfl⟩
  · have h : GoMap.keys (powers.entries.map (fun e => (sourceID e.1, e.2)))
        = (GoMap.keys powers.entries).map sourceID := by
      simp [GoMap.keys, Function.comp]
    rw [h]
    exact List.Nodup.map (fun a b hab => sourceID_injective a b hab) powers.nodup
  · simp
  · exact sourceID_injective

/-- C5 at a concrete input: for the indices `{0,1,2}` the keys are exactly `estimator0`,
`estimator1`, `estimator2`. -/
theorem GetNodePlatformPower_source_identifiers_witness :
    (GetNodePlatformPower threeDomainEstimator scenarioStats
        { nodePlatformPowerModel := some { ptr := 7, state := [] }, klog := [], env := () }
        emptyEnergyUsage false).toOption.map (fun r => r.1)
      = some [("estimator0", 100), ("estimator1", 110), ("estimator2", 120)] ∧
    ∃ platformEnergy w, GetNodePlatformPower threeDomainEstimator scenarioStats
        { nodePlatformPowerModel := some { ptr := 7, state := [] }, klog := [], env := () }
        emptyEnergyUsage false = Except.ok (platformEnergy, w) ∧
      (∀ socketID, GoMap.get platformEnergy (estimatorACPISensorID ++ fmtSprint socketID)
        = GoMap.get [(0, 100), (1, 110), (2, 120)] socketID) ∧
      (∀ key, key ∈ GoMap.keys platformEnergy ↔
        ∃ socketID ∈ GoMap.keys [((0 : Int), 100), (1, 110), (2, 120)],
          key = estimatorACPISensorID ++ fmtSprint socketID) ∧
      (GoMap.keys platformEnergy).Nodup ∧
      platformEnergy.length = 3 ∧
      (∀ i j : Int, estimatorACPISensorID ++ fmtSprint i = estimatorACPISensorID ++ fmtSprint j
        → i = j) :=
  ⟨by decide,
    GetNodePlatformPower_source_identifiers threeDomainEstimator scenarioStats 7 [] [] ()
      emptyEnergyUsage false ⟨[(0, 100), (1, 110), (2, 120)], by decide⟩ rfl⟩

/-- C6. For an absolute power (`isIdlePower = false`) and an estimator present, the calls
that `GetNodePlatformPower` makes on the estimator are, in this order and nothing else:
`ResetSampleIdx`, `GetNodeFeatureNamesList`, `AddNodeFeatureValues` with the row
`nodeMetrics.ToEstimatorValues(names, true)` for the names just returned, and
`GetPlatformPower(false)`. The function returns. -/
theorem absolute_power_call_sequence {σ ε F S : Type} (M : PowerModelInterface σ F)
    (N : NodeStatsInterface S F) (ptr : Nat) (st : σ) (calls : List (EstimatorCall F))
    (klog : List LogLine) (env : ε) (nodeMetrics : S) :
    ∃ platformEnergy w, GetNodePlatformPower (recordingEstimator M) N
        { nodePlatformPowerModel := some { ptr := ptr, state := (st, calls) },
          klog := klog, env := env }
        nodeMetrics false = Except.ok (platformEnergy, w) ∧
      w.nodePlatformPowerModel.map (fun inst => inst.state.2)
        = some (calls ++
          [EstimatorCall.ResetSampleIdx,
           EstimatorCall.GetNodeFeatureNamesList,
           EstimatorCall.AddNodeFeatureValues
             (N.ToEstimatorValues nodeMetrics
               (M.GetNodeFeatureNamesList (M.ResetSampleIdx st)).1 true),
           EstimatorCall.GetPlatformPower false]) := by
  simp only [GetNodePlatformPower, Option.isNone_some, Bool.false_eq_true, if_false]
  split
  · exact ⟨_, _, rfl, by simp [World.log, recordingEstimator, addSample]⟩
  · exact ⟨_, _, rfl, by simp [recordingEstimator, addSample]⟩

/-- C7. For an idle power (`isIdlePower = true`) and an estimator present, the only call
that `GetNodePlatformPower` and `UpdateNodePlatformIdleEnergy` make on the estimator is
`GetPlatformPower(true)`, and it is made on the estimator state the call began with: the
pending feature rows are not reset and no row is added. -/
theorem idle_power_call_sequence {σ ε F S : Type} (M : PowerModelInterface σ F)
    (N : NodeStatsInterface S F) (ptr : Nat) (st : σ) (calls : List (EstimatorCall F))
    (klog : List LogLine) (env : ε) (nodeMetrics : S) :
    addSample M N nodeMetrics true st = st ∧
    (∃ platformEnergy w, GetNodePlatformPower (recordingEstimator M) N
        { nodePlatformPowerModel := some { ptr := ptr, state := (st, calls) },
          klog := klog, env := env }
        nodeMetrics true = Except.ok (platformEnergy, w) ∧
      w.nodePlatformPowerModel
        = some { ptr := ptr,
                 state := ((M.GetPlatformPower true st).2,
                   calls ++ [EstimatorCall.GetPlatformPower true]) }) ∧
    (∃ nodeMetrics2 w, UpdateNodePlatformIdleEnergy (recordingEstimator M) N
        { nodePlatformPowerModel := some { ptr := ptr, state := (st, calls) },
          klog := klog, env := env }
        nodeMetrics = Except.ok (nodeMetrics2, w) ∧
      w.nodePlatformPowerModel
        = some { ptr := ptr,
                 state := ((M.GetPlatformPower true st).2,
                   calls ++ [EstimatorCall.GetPlatformPower true]) }) := by
  have hget : ∃ platformEnergy w, GetNodePlatformPower (recordingEstimator M) N
        { nodePlatformPowerModel := some { ptr := ptr, state := (st, calls) },
          klog := klog, env := env }
        nodeMetrics true = Except.ok (platformEnergy, w) ∧
      w.nodePlatformPowerModel
        = some { ptr := ptr,
                 state := ((M.GetPlatformPower true st).2,
                   calls ++ [EstimatorCall.GetPlatformPower true]) } := by
    simp only [GetNodePlatformPower, Option.isNone_some, Bool.false_eq_true, if_false]
    split
    · exact ⟨_, _, rfl, by simp [World.log, recordingEstimator, addSample]⟩
    · exact ⟨_, _, rfl, by simp [recordingEstimator, addSample]⟩
  refine ⟨by simp [addSample], hget, ?_⟩
  obtain ⟨pe, w, hw, hmodel⟩ := hget
  exact ⟨setPlatformEnergy N EnergyKey.IdleEnergyInPlatform pe nodeMetrics, w,
    by simp only [UpdateNodePlatformIdleEnergy, idlePower, hw], hmodel⟩

/-- The loop of the update functions on instrumented statistics: one record per entry of
`platformPower`, in the bucket of the loop. -/
theorem setPlatformEnergy_recording {S F : Type} (N : NodeStatsInterface S F)
    (bucket : EnergyKey) (platformPower : GoMap String Nat) :
    ∀ (nodeMetrics : S) (record : List (EnergyKey × String × Nat)),
      setPlatformEnergy (recordingStats N) bucket platformPower (nodeMetrics, record)
        = (setPlatformEnergy N bucket platformPower nodeMetrics,
            record ++ platformPower.map
              (fun entry => (bucket, entry.1, entry.2 * N.SamplePeriodSec % uint64Size))) := by
  induction platformPower with
  | nil => intro nodeMetrics record; simp [setPlatformEnergy]
  | cons e rest ih =>
    intro nodeMetrics record
    have hstep : setPlatformEnergy (recordingStats N) bucket (e :: rest) (nodeMetrics, record)
        = setPlatformEnergy (recordingStats N) bucket rest
            (N.SetDeltaStat bucket e.1 (e.2 * N.SamplePeriodSec % uint64Size) nodeMetrics,
              record ++ [(bucket, e.1, e.2 * N.SamplePeriodSec % uint64Size)]) := rfl
    rw [hstep, ih]
    simp [setPlatformEnergy]

/-- C3. For the mapping `platformPower` that `GetNodePlatformPower(nodeMetrics, false)`
returns, `UpdateNodePlatformEnergy` calls `SetDeltaStat` once for each entry
`(sourceID, power)`, on the bucket `AbsEnergyInPlatform`, with the key `sourceID` and the
`uint64` value `power * SamplePeriodSec`, and makes no other `SetDeltaStat` call; for the
mapping that `GetNodePlatformPower(nodeMetrics, true)` returns,
`UpdateNodePlatformIdleEnergy` does the same on the bucket `IdleEnergyInPlatform`. -/
theorem update_calls_per_source {σ ε F S : Type} (M : PowerModelInterface σ F)
    (N : NodeStatsInterface S F) (w w2 : World σ ε) (nodeMetrics : S)
    (record : List (EnergyKey × String × Nat)) (isIdlePower : Bool)
    (platformPower : GoMap String Nat)
    (hget : GetNodePlatformPower M (recordingStats N) w (nodeMetrics, record) isIdlePower
      = Except.ok (platformPower, w2)) :
    (isIdlePower = false →
      ∃ nodeMetrics2, UpdateNodePlatformEnergy M (recordingStats N) w (nodeMetrics, record)
        = Except.ok
          ((nodeMetrics2, record ++ platformPower.map (fun entry =>
            (EnergyKey.AbsEnergyInPlatform, entry.1,
              entry.2 * N.SamplePeriodSec % uint64Size))), w2)) ∧
    (isIdlePower = true →
      ∃ nodeMetrics2, UpdateNodePlatformIdleEnergy M (recordingStats N) w (nodeMetrics, record)
        = Except.ok
          ((nodeMetrics2, record ++ platformPower.map (fun entry =>
            (EnergyKey.IdleEnergyInPlatform, entry.1,
              entry.2 * N.SamplePeriodSec % uint64Size))), w2)) := by
  constructor
  · intro hmode
    subst hmode
    refine ⟨setPlatformEnergy N EnergyKey.AbsEnergyInPlatform platformPower nodeMetrics, ?_⟩
    simp only [UpdateNodePlatformEnergy, absPower, hget, setPlatformEnergy_recording]
  · intro hmode
    subst hmode
    refine ⟨setPlatformEnergy N EnergyKey.IdleEnergyInPlatform platformPower nodeMetrics, ?_⟩
    simp only [UpdateNodePlatformIdleEnergy, idlePower, hget, setPlatformEnergy_recording]

/-- C3 at the scenario of the spec: the sample period is 3, the estimator predicts
`{0:150, 1:170}`, and `UpdateNodePlatformEnergy` records `estimator0 -> 450` and
`estimator1 -> 510` on the absolute bucket; the idle call that follows predicts
`{0:20, 1:25}` and records `estimator0 -> 60` and `estimator1 -> 75` on the idle bucket,
and the accumulators of the absolute bucket are what they were before it. -/
theorem update_calls_per_source_witness :
    (GetNodePlatformPower scenarioEstimator (recordingStats scenarioStats) (worldWith [])
        (emptyEnergyUsage, []) false
      = Except.ok ([("estimator0", 150), ("estimator1", 170)], worldWith [[8, 10]])) ∧
    ((false = false →
      ∃ nodeMetrics2, UpdateNodePlatformEnergy scenarioEstimator (recordingStats scenarioStats)
          (worldWith []) (emptyEnergyUsage, [])
        = Except.ok
          ((nodeMetrics2, [] ++ [("estimator0", 150), ("estimator1", 170)].map (fun entry =>
            (EnergyKey.AbsEnergyInPlatform, entry.1,
              entry.2 * scenarioStats.SamplePeriodSec % uint64Size))), worldWith [[8, 10]])) ∧
    (false = true →
      ∃ nodeMetrics2, UpdateNodePlatformIdleEnergy scenarioEstimator
          (recordingStats scenarioStats) (worldWith []) (emptyEnergyUsage, [])
        = Except.ok
          ((nodeMetrics2, [] ++ [("estimator0", 150), ("estimator1", 170)].map (fun entry =>
            (EnergyKey.IdleEnergyInPlatform, entry.1,
              entry.2 * scenarioStats.SamplePeriodSec % uint64Size))), worldWith [[8, 10]]))) ∧
    ((UpdateNodePlatformEnergy scenarioEstimator (recordingStats scenarioStats)
        (worldWith []) (emptyEnergyUsage, [])).toOption.map
        (fun r => (r.1.2, r.1.1 EnergyKey.AbsEnergyInPlatform,
          r.1.1 EnergyKey.IdleEnergyInPlatform))
      = some ([(EnergyKey.AbsEnergyInPlatform, "estimator0", 450),
               (EnergyKey.AbsEnergyInPlatform, "estimator1", 510)],
              [("estimator0", 450), ("estimator1", 510)], [])) ∧
    (((UpdateNodePlatformEnergy scenarioEstimator (recordingStats scenarioStats)
        (worldWith []) (emptyEnergyUsage, [])).bind
        (fun r => UpdateNodePlatformIdleEnergy scenarioEstimator (recordingStats scenarioStats)
          r.2 r.1)).toOption.map
        (fun r => (r.1.2, r.1.1 EnergyKey.AbsEnergyInPlatform,
          r.1.1 EnergyKey.IdleEnergyInPlatform))
      = some ([(EnergyKey.AbsEnergyInPlatform, "estimator0", 450),
               (EnergyKey.AbsEnergyInPlatform, "estimator1", 510),
               (EnergyKey.IdleEnergyInPlatform, "estimator0", 60),
               (EnergyKey.IdleEnergyInPlatform, "estimator1", 75)],
              [("estimator0", 450), ("estimator1", 510)],
              [("estimator0", 60), ("estimator1", 75)])) :=
  ⟨rfl,
    update_calls_per_source scenarioEstimator scenarioStats (worldWith []) (worldWith [[8, 10]])
      emptyEnergyUsage [] false [("estimator0", 150), ("estimator1", 170)] rfl,
    by decide, by decide⟩

/-! ### Accumulation -/

theorem accumulator_SetDeltaStat_self (e : EnergyUsage) (bucket : EnergyKey) (key : String)
    (value : Nat) :
    EnergyUsage.accumulator (EnergyUsage.SetDeltaStat bucket key value e) bucket key
      = (EnergyUsage.accumulator e bucket key + value) % uint64Size := by
  simp [EnergyUsage.accumulator, EnergyUsage.SetDeltaStat, GoMap.get_set_self]

theorem accumulator_SetDeltaStat_ne (e : EnergyUsage) (bucket : EnergyKey) (key key2 : String)
    (value : Nat) (h : key ≠ key2) :
    EnergyUsage.accumulator (EnergyUsage.SetDeltaStat bucket key value e) bucket key2
      = EnergyUsage.accumulator e bucket key2 := by
  simp [EnergyUsage.accumulator, EnergyUsage.SetDeltaStat, GoMap.get_set_ne _ _ _ _ h]

/-- The loop of the update functions on the accumulators: the accumulator of a source of
`platformPower` grows by the `uint64` product of its power and the sample period, every
other accumulator of the bucket stays. -/
theorem accumulator_setPlatformEnergy {F : Type} (values : List String → Bool → List F)
    (samplePeriodSec : Nat) (bucket : EnergyKey) (key : String)
    (platformPower : GoMap String Nat) :
    ∀ (e : EnergyUsage), (GoMap.keys platformPower).Nodup →
      EnergyUsage.accumulator
          (setPlatformEnergy (accumulatingStats values samplePeriodSec) bucket platformPower e)
          bucket key
        = match GoMap.get platformPower key with
          | some power =>
            (EnergyUsage.accumulator e bucket key + power * samplePeriodSec % uint64Size)
              % uint64Size
          | none => EnergyUsage.accumulator e bucket key := by
  induction platformPower with
  | nil => intro e _; simp [setPlatformEnergy, GoMap.get]
  | cons entry rest ih =>
    intro e hnd
    obtain ⟨k, v⟩ := entry
    simp only [GoMap.keys, List.map_cons, List.nodup_cons] at hnd
    have hstep : setPlatformEnergy (accumulatingStats values samplePeriodSec) bucket
          ((k, v) :: rest) e
        = setPlatformEnergy (accumulatingStats values samplePeriodSec) bucket rest
            (EnergyUsage.SetDeltaStat bucket k (v * samplePeriodSec % uint64Size) e) := rfl
    rw [hstep, ih _ hnd.2]
    by_cases hk : k = key
    · subst hk
      rw [GoMap.get_eq_none_of_not_mem rest k hnd.1]
      simp [GoMap.get, accumulator_SetDeltaStat_self]
    · simp only [GoMap.get, hk, if_false]
      rw [accumulator_SetDeltaStat_ne e bucket k key _ hk]

/-- The map that `GetNodePlatformPower` returns has no repeated key. -/
theorem GetNodePlatformPower_keys_nodup {σ ε F S : Type} (M : PowerModelInterface σ F)
    (N : NodeStatsInterface S F) (w w2 : World σ ε) (nodeMetrics : S) (isIdlePower : Bool)
    (platformPower : GoMap String Nat)
    (h : GetNodePlatformPower M N w nodeMetrics isIdlePower = Except.ok (platformPower, w2)) :
    (GoMap.keys platformPower).Nodup := by
  obtain ⟨model, klog, env⟩ := w
  cases model with
  | none => simp [GetNodePlatformPower, World.log] at h
  | some inst =>
    simp only [GetNodePlatformPower, Option.isNone_some, Bool.false_eq_true, if_false] at h
    split at h
    · simp only [Except.ok.injEq, Prod.mk.injEq] at h
      rw [← h.1]
      simp [GoMap.keys]
    · simp only [Except.ok.injEq, Prod.mk.injEq] at h
      rw [← h.1, sourcePowers_eq_map]
      have hk : GoMap.keys (List.map (fun e => (sourceID e.1, e.2))
            (M.GetPlatformPower isIdlePower
              (addSample M N nodeMetrics isIdlePower inst.state)).1.1.entries)
          = (GoMap.keys (M.GetPlatformPower isIdlePower
              (addSample M N nodeMetrics isIdlePower inst.state)).1.1.entries).map sourceID := by
        simp [GoMap.keys, Function.comp]
      rw [hk]
      exact List.Nodup.map (fun a b hab => sourceID_injective a b hab) (PowerResult.nodup _)

/-- One call of an update function on the accumulators, for a source to which the
estimator gives the power `power`. -/
theorem accumulator_updateFor {σ ε F : Type} (M : PowerModelInterface σ F)
    (values : List String → Bool → List F) (samplePeriodSec : Nat) (isIdlePower : Bool)
    (w w2 : World σ ε) (e e2 : EnergyUsage) (key : String) (power : Nat)
    (hupdate : updateFor isIdlePower M (accumulatingStats values samplePeriodSec) w e
      = Except.ok (e2, w2))
    (hpower : estimatedPower M (accumulatingStats values samplePeriodSec) w e isIdlePower key
      = some power) :
    EnergyUsage.accumulator e2 (bucketFor isIdlePower) key
      = (EnergyUsage.accumulator e (bucketFor isIdlePower) key
          + power * samplePeriodSec % uint64Size) % uint64Size := by
  cases hget : GetNodePlatformPower M (accumulatingStats values samplePeriodSec) w e isIdlePower with
  | error p => simp [estimatedPower, hget] at hpower
  | ok r =>
    obtain ⟨platformPower, w3⟩ := r
    have hnd := GetNodePlatformPower_keys_nodup M _ w w3 e isIdlePower platformPower hget
    simp only [estimatedPower, hget] at hpower
    cases isIdlePower with
    | false =>
      simp only [updateFor, Bool.false_eq_true, if_false, UpdateNodePlatformEnergy, absPower,
        hget, Except.ok.injEq, Prod.mk.injEq] at hupdate
      rw [← hupdate.1]
      simp only [bucketFor, Bool.false_eq_true, if_false]
      rw [accumulator_setPlatformEnergy values samplePeriodSec _ key platformPower e hnd, hpower]
    | true =>
      simp only [updateFor, if_true, UpdateNodePlatformIdleEnergy, idlePower,
        hget, Except.ok.injEq, Prod.mk.injEq] at hupdate
      rw [← hupdate.1]
      simp only [bucketFor, if_true]
      rw [accumulator_setPlatformEnergy values samplePeriodSec _ key platformPower e hnd, hpower]

/-- C2. With `SetDeltaStat` adding to the accumulator as the spec describes it: if two
consecutive calls of `UpdateNodePlatformEnergy` both return and the estimator gives the
same power `P` to a source in both, the accumulator of that source in the absolute bucket
is afterwards its value before the first call plus `2 * P * SamplePeriodSec` in `uint64`
arithmetic, which is that very sum whenever it is below `2^64`; the same holds for
`UpdateNodePlatformIdleEnergy` and the idle bucket (`isIdlePower = true`). -/
theorem accumulation_is_additive {σ ε F : Type} (M : PowerModelInterface σ F)
    (values : List String → Bool → List F) (samplePeriodSec : Nat) (isIdlePower : Bool)
    (w0 w1 w2 : World σ ε) (e0 e1 e2 : EnergyUsage) (key : String) (P : Nat)
    (hfirst : updateFor isIdlePower M (accumulatingStats values samplePeriodSec) w0 e0
      = Except.ok (e1, w1))
    (hsecond : updateFor isIdlePower M (accumulatingStats values samplePeriodSec) w1 e1
      = Except.ok (e2, w2))
    (hpower1 : estimatedPower M (accumulatingStats values samplePeriodSec) w0 e0 isIdlePower key
      = some P)
    (hpower2 : estimatedPower M (accumulatingStats values samplePeriodSec) w1 e1 isIdlePower key
      = some P) :
    EnergyUsage.accumulator e2 (bucketFor isIdlePower) key
        = (EnergyUsage.accumulator e0 (bucketFor isIdlePower) key + 2 * P * samplePeriodSec)
            % uint64Size ∧
      (EnergyUsage.accumulator e0 (bucketFor isIdlePower) key + 2 * P * samplePeriodSec
          < uint64Size →
        EnergyUsage.accumulator e2 (bucketFor isIdlePower) key
          = EnergyUsage.accumulator e0 (bucketFor isIdlePower) key
              + 2 * P * samplePeriodSec) := by
  have h1 := accumulator_updateFor M values samplePeriodSec isIdlePower w0 w1 e0 e1 key P
    hfirst hpower1
  have h2 := accumulator_updateFor M values samplePeriodSec isIdlePower w1 w2 e1 e2 key P
    hsecond hpower2
  rw [h1] at h2
  have hmul : 2 * P * samplePeriodSec = 2 * (P * samplePeriodSec) := by ring
  rw [h2, hmul]
  generalize P * samplePeriodSec = d
  generalize EnergyUsage.accumulator e0 (bucketFor isIdlePower) key = a
  simp only [uint64Size]
  constructor
  · omega
  · intro hlt
    omega

/-- C2 at the scenario of the spec: two calls of `UpdateNodePlatformEnergy` with the
constant power 150 and the sample period 3 bring the accumulator of `estimator0` from 0 to
900. -/
theorem accumulation_is_additive_witness :
    (updateFor false scenarioEstimator scenarioStats (worldWith []) (scenarioEnergyUsage 0)
      = Except.ok (scenarioEnergyUsage 1, worldWith [[8, 10]])) ∧
    (updateFor false scenarioEstimator scenarioStats (worldWith [[8, 10]])
        (scenarioEnergyUsage 1)
      = Except.ok (scenarioEnergyUsage 2, worldWith [[8, 10]])) ∧
    EnergyUsage.accumulator (scenarioEnergyUsage 0) EnergyKey.AbsEnergyInPlatform "estimator0"
      = 0 ∧
    EnergyUsage.accumulator (scenarioEnergyUsage 2) EnergyKey.AbsEnergyInPlatform "estimator0"
      = 900 ∧
    (EnergyUsage.accumulator (scenarioEnergyUsage 2) (bucketFor false) "estimator0"
        = (EnergyUsage.accumulator (scenarioEnergyUsage 0) (bucketFor false) "estimator0"
            + 2 * 150 * 3) % uint64Size ∧
      (EnergyUsage.accumulator (scenarioEnergyUsage 0) (bucketFor false) "estimator0"
          + 2 * 150 * 3 < uint64Size →
        EnergyUsage.accumulator (scenarioEnergyUsage 2) (bucketFor false) "estimator0"
          = EnergyUsage.accumulator (scenarioEnergyUsage 0) (bucketFor false) "estimator0"
              + 2 * 150 * 3)) :=
  ⟨rfl, rfl, by decide, by decide,
    accumulation_is_additive scenarioEstimator (fun names _ => names.map String.length) 3
      false (worldWith []) (worldWith [[8, 10]]) (worldWith [[8, 10]])
      (scenarioEnergyUsage 0) (scenarioEnergyUsage 1) (scenarioEnergyUsage 2) "estimator0" 150
      rfl rfl rfl rfl⟩

/-! ### Construction and enablement -/

/-- C8 as stated fails: the constructor of `leakyCollaborators` returns an error, and an
estimator with it; line 52 has assigned that estimator to `nodePlatformPowerModel` before
the error is looked at, so after the failed construction the variable is not nil and
`IsNodePlatformPowerModelEnabled` returns true. -/
theorem enabled_after_failed_construction :
    (leakyCollaborators.createPowerModelEstimator
        (assembleModelConfig leakyCollaborators ["cpu_time"] [] []
          (initialWorld : World (List (List Nat)) Nat).env)
        (initialWorld : World (List (List Nat)) Nat).env).1.2
      = some "model weights not loaded" ∧
    (CreateNodePlatformPowerEstimatorModel leakyCollaborators ["cpu_time"] [] []
        initialWorld).instancePtr = some 0 ∧
    (IsNodePlatformPowerModelEnabled scenarioEstimator
        (CreateNodePlatformPowerEstimatorModel leakyCollaborators ["cpu_time"] [] []
          initialWorld)).1 = true ∧
    ¬ ((leakyCollaborators.createPowerModelEstimator
          (assembleModelConfig leakyCollaborators ["cpu_time"] [] []
            (initialWorld : World (List (List Nat)) Nat).env)
          (initialWorld : World (List (List Nat)) Nat).env).1.2 ≠ none →
        (IsNodePlatformPowerModelEnabled scenarioEstimator
          (CreateNodePlatformPowerEstimatorModel leakyCollaborators ["cpu_time"] [] []
            initialWorld)).1 = false) :=
  ⟨by decide, by decide, by decide, by decide⟩

/-- C8 amended. `IsNodePlatformPowerModelEnabled` returns true exactly when
`nodePlatformPowerModel` is not nil and the estimator it holds reports `IsEnabled()`: it
returns false before any construction attempt; after
`CreateNodePlatformPowerEstimatorModel` the variable holds the first result of
`createPowerModelEstimator`, with or without an error, so the function returns false when
that result is nil (in particular after a failure that returned no estimator) and the
estimator's `IsEnabled()` otherwise. -/
theorem enabled_iff_model_ready {σ ε F : Type} (C : Collaborators σ ε)
    (M : PowerModelInterface σ F)
    (nodeFeatureNames systemMetaDataFeatureNames systemMetaDataFeatureValues : List String)
    (w : World σ ε) (klog : List LogLine) (env : ε) :
    (IsNodePlatformPowerModelEnabled M
        { nodePlatformPowerModel := none, klog := klog, env := env }).1 = false ∧
    ((IsNodePlatformPowerModelEnabled M w).1 = true ↔
      ∃ inst, w.nodePlatformPowerModel = some inst ∧ (M.IsEnabled inst.state).1 = true) ∧
    (CreateNodePlatformPowerEstimatorModel C nodeFeatureNames systemMetaDataFeatureNames
        systemMetaDataFeatureValues w).nodePlatformPowerModel
      = (C.createPowerModelEstimator
          (assembleModelConfig C nodeFeatureNames systemMetaDataFeatureNames
            systemMetaDataFeatureValues w.env) w.env).1.1 ∧
    (IsNodePlatformPowerModelEnabled M
        (CreateNodePlatformPowerEstimatorModel C nodeFeatureNames systemMetaDataFeatureNames
          systemMetaDataFeatureValues w)).1
      = (match (C.createPowerModelEstimator
            (assembleModelConfig C nodeFeatureNames systemMetaDataFeatureNames
              systemMetaDataFeatureValues w.env) w.env).1.1 with
          | none => false
          | some inst => (M.IsEnabled inst.state).1) ∧
    ((C.createPowerModelEstimator
          (assembleModelConfig C nodeFeatureNames systemMetaDataFeatureNames
            systemMetaDataFeatureValues w.env) w.env).1.1 = none →
      (IsNodePlatformPowerModelEnabled M
        (CreateNodePlatformPowerEstimatorModel C nodeFeatureNames systemMetaDataFeatureNames
          systemMetaDataFeatureValues w)).1 = false) := by
  have hmodel : (CreateNodePlatformPowerEstimatorModel C nodeFeatureNames
        systemMetaDataFeatureNames systemMetaDataFeatureValues w).nodePlatformPowerModel
      = (C.createPowerModelEstimator
          (assembleModelConfig C nodeFeatureNames systemMetaDataFeatureNames
            systemMetaDataFeatureValues w.env) w.env).1.1 := by
    simp only [CreateNodePlatformPowerEstimatorModel]
    split <;> split <;> simp [World.log]
  have hread : ∀ v : World σ ε, (IsNodePlatformPowerModelEnabled M v).1
      = (match v.nodePlatformPowerModel with
          | none => false
          | some inst => (M.IsEnabled inst.state).1) := by
    intro v
    obtain ⟨model, klog2, env2⟩ := v
    cases model <;> rfl
  refine ⟨rfl, ?_, hmodel, ?_, ?_⟩
  · rw [hread w]
    cases w.nodePlatformPowerModel with
    | none => simp
    | some inst => simp
  · rw [hread, hmodel]
  · intro hnone
    rw [hread, hmodel, hnone]

/-- C8 amended, at a concrete input: the example constructor fails without a node feature
and returns no estimator then; after that attempt the model is not enabled, after an
attempt with a node feature it is. -/
theorem enabled_iff_model_ready_witness :
    ((IsNodePlatformPowerModelEnabled scenarioEstimator
        (CreateNodePlatformPowerEstimatorModel (exampleCollaborators "" false) [] [] []
          initialWorld)).1 = false) ∧
    ((IsNodePlatformPowerModelEnabled scenarioEstimator
        (CreateNodePlatformPowerEstimatorModel (exampleCollaborators "" false) ["cpu_time"] []
          [] initialWorld)).1 = true) ∧
    ((exampleCollaborators "" false).createPowerModelEstimator
        (assembleModelConfig (exampleCollaborators "" false) [] [] []
          (initialWorld : World (List (List Nat)) Nat).env)
        (initialWorld : World (List (List Nat)) Nat).env).1.1 = none ∧
    (IsNodePlatformPowerModelEnabled scenarioEstimator
        (CreateNodePlatformPowerEstimatorModel (exampleCollaborators "" false) [] [] []
          initialWorld)).1 = false :=
  ⟨by decide, by decide, by decide,
    (enabled_iff_model_ready (exampleCollaborators "" false) scenarioEstimator [] [] []
      initialWorld [] 0).2.2.2.2 (by decide)⟩

/-! ### The lifecycle of the estimator -/

theorem CreateNodePlatformPowerEstimatorModel_model {σ ε : Type} (C : Collaborators σ ε)
    (a b c : List String) (w : World σ ε) :
    (CreateNodePlatformPowerEstimatorModel C a b c w).nodePlatformPowerModel
      = (C.createPowerModelEstimator (assembleModelConfig C a b c w.env) w.env).1.1 := by
  simp only [CreateNodePlatformPowerEstimatorModel]
  split <;> split <;> simp [World.log]

theorem CreateNodePlatformPowerEstimatorModel_env {σ ε : Type} (C : Collaborators σ ε)
    (a b c : List String) (w : World σ ε) :
    (CreateNodePlatformPowerEstimatorModel C a b c w).env
      = (C.createPowerModelEstimator (assembleModelConfig C a b c w.env) w.env).2 := by
  simp only [CreateNodePlatformPowerEstimatorModel]
  split <;> split <;> simp [World.log]

theorem IsNodePlatformPowerModelEnabled_instancePtr {σ ε F : Type}
    (M : PowerModelInterface σ F) (w : World σ ε) :
    (IsNodePlatformPowerModelEnabled M w).2.instancePtr = w.instancePtr := by
  obtain ⟨model, klog, env⟩ := w
  cases model <;> simp [IsNodePlatformPowerModelEnabled, World.instancePtr]

theorem GetNodePlatformPower_instancePtr {σ ε F S : Type} (M : PowerModelInterface σ F)
    (N : NodeStatsInterface S F) (w : World σ ε) (nodeMetrics : S) (isIdlePower : Bool)
    (r : GoMap String Nat × World σ ε)
    (h : GetNodePlatformPower M N w nodeMetrics isIdlePower = Except.ok r) :
    r.2.instancePtr = w.instancePtr := by
  obtain ⟨model, klog, env⟩ := w
  cases model with
  | none => simp [GetNodePlatformPower, World.log] at h
  | some inst =>
    simp only [GetNodePlatformPower, Option.isNone_some, Bool.false_eq_true, if_false] at h
    split at h
    · simp only [Except.ok.injEq] at h
      rw [← h]
      simp [World.instancePtr, World.log]
    · simp only [Except.ok.injEq] at h
      rw [← h]
      simp [World.instancePtr]

theorem runCall_instancePtr {σ ε F S : Type} (C : Collaborators σ ε)
    (M : PowerModelInterface σ F) (N : NodeStatsInterface S F) (w w2 : World σ ε)
    (call : Call S) (hcall : call.isCreate = false)
    (h : runCall C M N w call = Except.ok w2) : w2.instancePtr = w.instancePtr := by
  cases call with
  | CreateNodePlatformPowerEstimatorModel a b c => simp [Call.isCreate] at hcall
  | IsNodePlatformPowerModelEnabled =>
    simp only [runCall, Except.ok.injEq] at h
    rw [← h]
    exact IsNodePlatformPowerModelEnabled_instancePtr M w
  | GetNodePlatformPower nodeMetrics isIdlePower =>
    simp only [runCall] at h
    cases hget : GetNodePlatformPower M N w nodeMetrics isIdlePower with
    | error p => simp [hget, Except.map] at h
    | ok r =>
      simp only [hget, Except.map, Except.ok.injEq] at h
      rw [← h]
      exact GetNodePlatformPower_instancePtr M N w nodeMetrics isIdlePower r hget
  | UpdateNodePlatformEnergy nodeMetrics =>
    simp only [runCall, UpdateNodePlatformEnergy] at h
    cases hget : GetNodePlatformPower M N w nodeMetrics absPower with
    | error p => simp [hget, Except.map] at h
    | ok r =>
      simp only [hget, Except.map, Except.ok.injEq] at h
      rw [← h]
      exact GetNodePlatformPower_instancePtr M N w nodeMetrics absPower r hget
  | UpdateNodePlatformIdleEnergy nodeMetrics =>
    simp only [runCall, UpdateNodePlatformIdleEnergy] at h
    cases hget : GetNodePlatformPower M N w nodeMetrics idlePower with
    | error p => simp [hget, Except.map] at h
    | ok r =>
      simp only [hget, Except.map, Except.ok.injEq] at h
      rw [← h]
      exact GetNodePlatformPower_instancePtr M N w nodeMetrics idlePower r hget

/-- C9 as stated fails: after a construction attempt has set `nodePlatformPowerModel` to
the estimator at address 0, a second call of `CreateNodePlatformPowerEstimatorModel`
replaces it by the estimator at address 1, and a call without node features, whose
construction fails, sets it to nil. -/
theorem lifecycle_not_terminal :
    (CreateNodePlatformPowerEstimatorModel (exampleCollaborators "" false) ["cpu_time"] [] []
        initialWorld).instancePtr = some 0 ∧
    (runCalls (exampleCollaborators "" false) scenarioEstimator scenarioStats
        [Call.CreateNodePlatformPowerEstimatorModel ["cpu_time"] [] []]
        (CreateNodePlatformPowerEstimatorModel (exampleCollaborators "" false) ["cpu_time"] []
          [] initialWorld)).instancePtr = some 1 ∧
    (runCalls (exampleCollaborators "" false) scenarioEstimator scenarioStats
        [Call.CreateNodePlatformPowerEstimatorModel [] [] []]
        (CreateNodePlatformPowerEstimatorModel (exampleCollaborators "" false) ["cpu_time"] []
          [] initialWorld)).instancePtr = none ∧
    ¬ (∀ calls : List (Call EnergyUsage),
        (runCalls (exampleCollaborators "" false) scenarioEstimator scenarioStats calls
          (CreateNodePlatformPowerEstimatorModel (exampleCollaborators "" false) ["cpu_time"]
            [] [] initialWorld)).instancePtr
        = (CreateNodePlatformPowerEstimatorModel (exampleCollaborators "" false) ["cpu_time"]
            [] [] initialWorld).instancePtr) :=
  ⟨by decide, by decide, by decide,
    fun h => absurd (h [Call.CreateNodePlatformPowerEstimatorModel ["cpu_time"] [] []])
      (by decide)⟩

/-- C9 amended. Over every sequence of calls of `IsNodePlatformPowerModelEnabled`,
`GetNodePlatformPower`, `UpdateNodePlatformEnergy` and `UpdateNodePlatformIdleEnergy`, with
every argument, `nodePlatformPowerModel` keeps holding the same estimator instance (nil
stays nil); a call of `CreateNodePlatformPowerEstimatorModel` assigns to it what
`createPowerModelEstimator` returns, whatever it held. -/
theorem lifecycle_without_construction {σ ε F S : Type} (C : Collaborators σ ε)
    (M : PowerModelInterface σ F) (N : NodeStatsInterface S F) (calls : List (Call S))
    (w : World σ ε) (a b c : List String)
    (hcalls : ∀ call ∈ calls, call.isCreate = false) :
    (runCalls C M N calls w).instancePtr = w.instancePtr ∧
    (CreateNodePlatformPowerEstimatorModel C a b c w).nodePlatformPowerModel
      = (C.createPowerModelEstimator (assembleModelConfig C a b c w.env) w.env).1.1 := by
  refine ⟨?_, CreateNodePlatformPowerEstimatorModel_model C a b c w⟩
  induction calls generalizing w with
  | nil => rfl
  | cons call rest ih =>
    have hcall : call.isCreate = false := hcalls call (List.mem_cons_self _ _)
    have hrest : ∀ call ∈ rest, call.isCreate = false :=
      fun x hx => hcalls x (List.mem_cons_of_mem _ hx)
    simp only [runCalls]
    cases hrun : runCall C M N w call with
    | error p => rfl
    | ok w2 =>
      simp only
      rw [ih w2 hrest]
      exact runCall_instancePtr C M N w w2 call hcall hrun

/-- C9 amended, at a concrete input: an enablement query, an absolute and an idle update
leave the estimator at address 7 in place. -/
theorem lifecycle_without_construction_witness :
    (∀ call ∈ [Call.IsNodePlatformPowerModelEnabled,
        Call.UpdateNodePlatformEnergy emptyEnergyUsage,
        Call.UpdateNodePlatformIdleEnergy emptyEnergyUsage,
        Call.GetNodePlatformPower emptyEnergyUsage false], call.isCreate = false) ∧
    ((runCalls (exampleCollaborators "" false) scenarioEstimator scenarioStats
        [Call.IsNodePlatformPowerModelEnabled,
          Call.UpdateNodePlatformEnergy emptyEnergyUsage,
          Call.UpdateNodePlatformIdleEnergy emptyEnergyUsage,
          Call.GetNodePlatformPower emptyEnergyUsage false] (worldWith [])).instancePtr
        = (worldWith ([] : List (List Nat))).instancePtr ∧
      (CreateNodePlatformPowerEstimatorModel (exampleCollaborators "" false) ["cpu_time"] [] []
          (worldWith [])).nodePlatformPowerModel
        = ((exampleCollaborators "" false).createPowerModelEstimator
            (assembleModelConfig (exampleCollaborators "" false) ["cpu_time"] [] []
              (worldWith ([] : List (List Nat))).env)
            (worldWith ([] : List (List Nat))).env).1.1) :=
  ⟨by simp [Call.isCreate],
    lifecycle_without_construction (exampleCollaborators "" false) scenarioEstimator
      scenarioStats _ (worldWith []) ["cpu_time"] [] [] (by simp [Call.isCreate])⟩

/-- C10. For every argument triple and whatever `platform.IsSystemCollectionSupported()`
says, `CreateNodePlatformPowerEstimatorModel` calls `createPowerModelEstimator` exactly
once, with the configuration of `CreatePowerModelConfig(NodePlatformPowerKey)` in which
the three feature lists are the arguments, `IsNodePowerModel` is true, and
`InitModelFilepath` is `GetDefaultPowerModelURL(ModelOutputType.String(),
PlatformEnergySource)` if `InitModelURL` is empty and is left as configured otherwise;
`nodePlatformPowerModel` and the environment are what that call returns, and
`IsSystemCollectionSupported` changes the log only. -/
theorem construction_attempted_once {σ ε : Type} (C : Collaborators σ ε)
    (nodeFeatureNames systemMetaDataFeatureNames systemMetaDataFeatureValues : List String)
    (model : Option (Instance σ)) (klog : List LogLine) (env : ε)
    (attempts : List ModelConfig) (isSystemCollectionSupported : ε → Bool) :
    (CreateNodePlatformPowerEstimatorModel (recordingCollaborators C) nodeFeatureNames
        systemMetaDataFeatureNames systemMetaDataFeatureValues
        { nodePlatformPowerModel := model, klog := klog, env := (env, attempts) }).env.2
      = attempts ++
        [{ C.CreatePowerModelConfig C.NodePlatformPowerKey env with
            InitModelFilepath :=
              if (C.CreatePowerModelConfig C.NodePlatformPowerKey env).InitModelURL = "" then
                C.GetDefaultPowerModelURL
                  (C.ModelOutputTypeString
                    (C.CreatePowerModelConfig C.NodePlatformPowerKey env).ModelOutputType)
                  C.PlatformEnergySource
              else (C.CreatePowerModelConfig C.NodePlatformPowerKey env).InitModelFilepath
            NodeFeatureNames := nodeFeatureNames
            SystemMetaDataFeatureNames := systemMetaDataFeatureNames
            SystemMetaDataFeatureValues := systemMetaDataFeatureValues
            IsNodePowerModel := true }] ∧
    (CreateNodePlatformPowerEstimatorModel (recordingCollaborators C) nodeFeatureNames
        systemMetaDataFeatureNames systemMetaDataFeatureValues
        { nodePlatformPowerModel := model, klog := klog, env := (env, attempts) }).env.2
      = attempts ++ [assembleModelConfig C nodeFeatureNames systemMetaDataFeatureNames
          systemMetaDataFeatureValues env] ∧
    (CreateNodePlatformPowerEstimatorModel (recordingCollaborators C) nodeFeatureNames
        systemMetaDataFeatureNames systemMetaDataFeatureValues
        { nodePlatformPowerModel := model, klog := klog, env := (env, attempts) }
        ).nodePlatformPowerModel
      = (C.createPowerModelEstimator
          (assembleModelConfig C nodeFeatureNames systemMetaDataFeatureNames
            systemMetaDataFeatureValues env) env).1.1 ∧
    (CreateNodePlatformPowerEstimatorModel (recordingCollaborators C) nodeFeatureNames
        systemMetaDataFeatureNames systemMetaDataFeatureValues
        { nodePlatformPowerModel := model, klog := klog, env := (env, attempts) }).env.1
      = (C.createPowerModelEstimator
          (assembleModelConfig C nodeFeatureNames systemMetaDataFeatureNames
            systemMetaDataFeatureValues env) env).2 ∧
    (CreateNodePlatformPowerEstimatorModel
        (recordingCollaborators
          { C with IsSystemCollectionSupported := isSystemCollectionSupported })
        nodeFeatureNames systemMetaDataFeatureNames systemMetaDataFeatureValues
        { nodePlatformPowerModel := model, klog := klog, env := (env, attempts) }
        ).nodePlatformPowerModel
      = (CreateNodePlatformPowerEstimatorModel (recordingCollaborators C) nodeFeatureNames
          systemMetaDataFeatureNames systemMetaDataFeatureValues
          { nodePlatformPowerModel := model, klog := klog, env := (env, attempts) }
          ).nodePlatformPowerModel ∧
    (CreateNodePlatformPowerEstimatorModel
        (recordingCollaborators
          { C with IsSystemCollectionSupported := isSystemCollectionSupported })
        nodeFeatureNames systemMetaDataFeatureNames systemMetaDataFeatureValues
        { nodePlatformPowerModel := model, klog := klog, env := (env, attempts) }).env
      = (CreateNodePlatformPowerEstimatorModel (recordingCollaborators C) nodeFeatureNames
          systemMetaDataFeatureNames systemMetaDataFeatureValues
          { nodePlatformPowerModel := model, klog := klog, env := (env, attempts) }).env ∧
    (CreateNodePlatformPowerEstimatorModel (recordingCollaborators C) nodeFeatureNames
        systemMetaDataFeatureNames systemMetaDataFeatureValues
        { nodePlatformPowerModel := model, klog := klog, env := (env, attempts) }).klog
      = klog ++
        (if C.IsSystemCollectionSupported env then
          [LogLine.Infof
            "Skipping creation of Node Platform Power Model since the system collection is supported"]
         else []) ++
        [match (C.createPowerModelEstimator
            (assembleModelConfig C nodeFeatureNames systemMetaDataFeatureNames
              systemMetaDataFeatureValues env) env).1.2 with
          | some _ =>
            LogLine.Errorf "Failed to create %s/%s Model to estimate Node Platform Power: %v"
          | none => LogLine.V1Infof "Using the %s/%s Model to estimate Node Platform Power"] := by
  have hklog : (CreateNodePlatformPowerEstimatorModel (recordingCollaborators C)
        nodeFeatureNames systemMetaDataFeatureNames systemMetaDataFeatureValues
        { nodePlatformPowerModel := model, klog := klog, env := (env, attempts) }).klog
      = klog ++
        (if C.IsSystemCollectionSupported env then
          [LogLine.Infof
            "Skipping creation of Node Platform Power Model since the system collection is supported"]
         else []) ++
        [match (C.createPowerModelEstimator
            (assembleModelConfig C nodeFeatureNames systemMetaDataFeatureNames
              systemMetaDataFeatureValues env) env).1.2 with
          | some _ =>
            LogLine.Errorf "Failed to create %s/%s Model to estimate Node Platform Power: %v"
          | none => LogLine.V1Infof "Using the %s/%s Model to estimate Node Platform Power"] := by
    have hrec : ∀ e : ε × List ModelConfig,
        ((recordingCollaborators C).createPowerModelEstimator
          (assembleModelConfig (recordingCollaborators C) nodeFeatureNames
            systemMetaDataFeatureNames systemMetaDataFeatureValues e) e).1.2
        = (C.createPowerModelEstimator
            (assembleModelConfig C nodeFeatureNames systemMetaDataFeatureNames
              systemMetaDataFeatureValues e.1) e.1).1.2 := fun e => rfl
    have hsys : (recordingCollaborators C).IsSystemCollectionSupported (env, attempts)
        = C.IsSystemCollectionSupported env := rfl
    simp only [CreateNodePlatformPowerEstimatorModel, hsys]
    cases hs : C.IsSystemCollectionSupported env <;>
      cases he : (C.createPowerModelEstimator
        (assembleModelConfig C nodeFeatureNames systemMetaDataFeatureNames
          systemMetaDataFeatureValues env) env).1.2 <;>
      simp [World.log, hrec, he]
  have hrun : ∀ (D : Collaborators σ ε),
      (CreateNodePlatformPowerEstimatorModel (recordingCollaborators D) nodeFeatureNames
          systemMetaDataFeatureNames systemMetaDataFeatureValues
          { nodePlatformPowerModel := model, klog := klog, env := (env, attempts) }
          ).nodePlatformPowerModel
        = (D.createPowerModelEstimator
            (assembleModelConfig D nodeFeatureNames systemMetaDataFeatureNames
              systemMetaDataFeatureValues env) env).1.1 ∧
      (CreateNodePlatformPowerEstimatorModel (recordingCollaborators D) nodeFeatureNames
          systemMetaDataFeatureNames systemMetaDataFeatureValues
          { nodePlatformPowerModel := model, klog := klog, env := (env, attempts) }).env
        = ((D.createPowerModelEstimator
            (assembleModelConfig D nodeFeatureNames systemMetaDataFeatureNames
              systemMetaDataFeatureValues env) env).2,
          attempts ++ [assembleModelConfig D nodeFeatureNames systemMetaDataFeatureNames
            systemMetaDataFeatureValues env]) := by
    intro D
    constructor
    · rw [CreateNodePlatformPowerEstimatorModel_model]
      rfl
    · rw [CreateNodePlatformPowerEstimatorModel_env]
      rfl
  have hC := hrun C
  have hD := hrun { C with IsSystemCollectionSupported := isSystemCollectionSupported }
  have hsame : assembleModelConfig
        { C with IsSystemCollectionSupported := isSystemCollectionSupported }
        nodeFeatureNames systemMetaDataFeatureNames systemMetaDataFeatureValues env
      = assembleModelConfig C nodeFeatureNames systemMetaDataFeatureNames
        systemMetaDataFeatureValues env := rfl
  have hexplicit : assembleModelConfig C nodeFeatureNames systemMetaDataFeatureNames
        systemMetaDataFeatureValues env
      = { C.CreatePowerModelConfig C.NodePlatformPowerKey env with
            InitModelFilepath :=
              if (C.CreatePowerModelConfig C.NodePlatformPowerKey env).InitModelURL = "" then
                C.GetDefaultPowerModelURL
                  (C.ModelOutputTypeString
                    (C.CreatePowerModelConfig C.NodePlatformPowerKey env).ModelOutputType)
                  C.PlatformEnergySource
              else (C.CreatePowerModelConfig C.NodePlatformPowerKey env).InitModelFilepath
            NodeFeatureNames := nodeFeatureNames
            SystemMetaDataFeatureNames := systemMetaDataFeatureNames
            SystemMetaDataFeatureValues := systemMetaDataFeatureValues
            IsNodePowerModel := true } := by
    simp only [assembleModelConfig]
    split <;> simp_all
  refine ⟨?_, ?_, hC.1, ?_, ?_, ?_, hklog⟩
  · rw [hC.2, hexplicit]
  · rw [hC.2]
  · rw [hC.2]
  · rw [hC.1, hD.1, hsame]
  · rw [hC.2, hD.2, hsame]

end Kepler
